import Mathlib

/-!
Verification development for the quizgen-ai repository.

The definitions below are a shallow embedding of the repository's
TypeScript source:
  - `src/types.ts` (data model),
  - `src/components/QuizView.tsx` (quiz session: answers, navigation,
    auto-advance timer, scoring, review),
  - `src/services/fileParser.ts` (file-type dispatch, PDF / Excel / image
    extraction),
  - `src/App.tsx` (`startQuiz` with the Fisher-Yates shuffle).

JavaScript string operations (`toLowerCase`, `trim`, `endsWith`,
`startsWith`) are modelled by executable char-list functions so all
concrete instances evaluate by `decide`.  JavaScript number rounding
(`Math.round`, half-up) is modelled by `round` on `ℚ`.
-/

/-! ### JavaScript string primitives -/

/-- ASCII lower-casing of one character (model of the effect of
`String.prototype.toLowerCase` on the ASCII range). -/
def lowerChar (c : Char) : Char :=
  if 'A' ≤ c ∧ c ≤ 'Z' then Char.ofNat (c.toNat + 32) else c

/-- Model of `s.toLowerCase()`. -/
def jsToLower (s : String) : String := ⟨s.data.map lowerChar⟩

/-- Whitespace test used by the model of `trim`. -/
def isWs (c : Char) : Bool := c == ' ' || c == '\t' || c == '\n' || c == '\r'

/-- Model of `s.trim()`: strip leading and trailing whitespace. -/
def jsTrim (s : String) : String :=
  ⟨((s.data.dropWhile isWs).reverse.dropWhile isWs).reverse⟩

/-- Model of `s.endsWith(pat)` (case-sensitive, as in JavaScript). -/
def jsEndsWith (s pat : String) : Bool := pat.data.isSuffixOf s.data

/-- Model of `s.startsWith(pat)`. -/
def jsStartsWith (s pat : String) : Bool := pat.data.isPrefixOf s.data

/-! ### Data model (`src/types.ts`) -/

inductive QuestionType where
  | MULTIPLE_CHOICE
  | TRUE_FALSE
  | SHORT_ANSWER
deriving DecidableEq, BEq, Repr

structure Question where
  id : String
  type : QuestionType
  question : String
  options : Option (List String)
  correctAnswer : String
  explanation : String
deriving DecidableEq, Repr

structure Quiz where
  id : String
  title : String
  sourceFileName : String
  createdAt : Nat
  questions : List Question
  score : Option Nat
  totalQuestions : Nat
deriving Repr

/-- `answers` record of a session: `Record<string, string>` modelled as a
finite partial map from question ids to answer strings. -/
def AnswerMap : Type := String → Option String

structure QuizAttempt where
  answers : AnswerMap
  isSubmitted : Bool
  score : Nat

/-! ### Scoring and review (`src/components/QuizView.tsx`) -/

/-- The normalization applied on both sides of the answer comparison in
`finishQuiz` / `getScore` / the review block:
`x.toLowerCase().trim()`. -/
def normalizeAnswer (s : String) : String := jsTrim (jsToLower s)

/-- The per-question comparison of `finishQuiz` and `getScore`:
`answers[q.id]?.toLowerCase().trim() === q.correctAnswer.toLowerCase().trim()`.
A missing entry (`undefined`) compares unequal to any string. -/
def scoreCorrectB (answers : AnswerMap) (q : Question) : Bool :=
  match answers q.id with
  | some a => normalizeAnswer a == normalizeAnswer q.correctAnswer
  | none => false

/-- The `forEach` counting loop shared by `finishQuiz` and `getScore`. -/
def computeScore (answers : AnswerMap) (qs : List Question) : Nat :=
  qs.countP (scoreCorrectB answers)

/-- `getScore` of `QuizView` (re-derivation of the score at review time). -/
def getScore (quiz : Quiz) (answers : AnswerMap) : Nat :=
  computeScore answers quiz.questions

/-- `finishQuiz`: the `QuizAttempt` handed to `onComplete` at the
`InProgress → Finished` transition. -/
def finishAttempt (quiz : Quiz) (answers : AnswerMap) : QuizAttempt :=
  { answers := answers, isSubmitted := true,
    score := computeScore answers quiz.questions }

/-- The percentage displayed on the results screen:
`Math.round((score / quiz.questions.length) * 100)`. -/
def displayedPercentage (quiz : Quiz) (answers : AnswerMap) : ℤ :=
  round (((getScore quiz answers : ℚ) / (quiz.questions.length : ℚ)) * 100)

/-- One row of the review list rendered after finishing. -/
structure ReviewEntry where
  userAnswer : String
  isCorrect : Bool
  shownExplanation : Option String

/-- The review block of `QuizView`:
`userAnswer = answers[q.id] || "No answer"` (an absent or empty answer
falls back to the sentinel), the verdict re-compares the displayed answer
against the key, and the explanation is rendered only when the verdict is
incorrect. -/
def reviewEntry (answers : AnswerMap) (q : Question) : ReviewEntry :=
  let userAnswer :=
    match answers q.id with
    | some a => if a == "" then "No answer" else a
    | none => "No answer"
  let isCorrect := normalizeAnswer userAnswer == normalizeAnswer q.correctAnswer
  { userAnswer := userAnswer, isCorrect := isCorrect,
    shownExplanation := if isCorrect then none else some q.explanation }

/-! ### Session state machine (`QuizView`) -/

structure SessionState where
  currentQuestionIndex : Nat
  answers : AnswerMap
  showFeedback : Bool
  isFinished : Bool
  /-- the `QuizAttempt` emitted through `onComplete`, if any -/
  emitted : Option QuizAttempt
  /-- captured `currentQuestionIndex` of each `setTimeout` auto-advance
  callback still scheduled (the timer of `handleAnswer`) -/
  pendingTimers : List Nat
  /-- the component has been unmounted (user exited the quiz) -/
  exited : Bool

/-- Initial session state: `InProgress(0, {}, false)`. -/
def initState : SessionState :=
  { currentQuestionIndex := 0, answers := fun _ => none,
    showFeedback := false, isFinished := false, emitted := none,
    pendingTimers := [], exited := false }

/-- `quiz.questions[currentQuestionIndex]`. -/
def currentQuestion (quiz : Quiz) (s : SessionState) : Option Question :=
  quiz.questions.get? s.currentQuestionIndex

/-- `isLastQuestion`: `currentQuestionIndex === quiz.questions.length - 1`. -/
def isLastQuestion (quiz : Quiz) (s : SessionState) : Bool :=
  s.currentQuestionIndex == quiz.questions.length - 1

/-- `handleAnswer`: guarded by `showFeedback || isFinished`; records
`answers[currentQuestion.id] = answer`; for MULTIPLE_CHOICE / TRUE_FALSE on
a non-last question it schedules a `setTimeout` auto-advance after 700 ms,
capturing the current index.  The cleanup closure
`() => clearTimeout(timer)` returned by `handleAnswer` is discarded by
every caller (it is an event handler, not an effect), so scheduling is the
only timer action the handler performs. -/
def handleAnswer (quiz : Quiz) (s : SessionState) (answer : String) :
    SessionState :=
  if s.showFeedback || s.isFinished then s
  else
    match currentQuestion quiz s with
    | none => s
    | some q =>
      let s1 := { s with
        answers := fun k => if k = q.id then some answer else s.answers k }
      if (q.type == QuestionType.MULTIPLE_CHOICE
            || q.type == QuestionType.TRUE_FALSE)
          && !isLastQuestion quiz s then
        { s1 with pendingTimers := s1.pendingTimers ++ [s.currentQuestionIndex] }
      else s1

/-- The auto-advance timer callback firing with its captured index:
removes itself from the pending set and, when the component is still
mounted, increments the index only if it still equals the captured one
(the functional-update guard), then clears `showFeedback`.  After unmount
the callback still runs but its `setState` calls are no-ops. -/
def fireTimer (s : SessionState) (captured : Nat) : SessionState :=
  if s.pendingTimers.contains captured then
    let s1 := { s with pendingTimers := s.pendingTimers.erase captured }
    if s1.exited then s1
    else
      { s1 with
        currentQuestionIndex :=
          if s1.currentQuestionIndex == captured then
            s1.currentQuestionIndex + 1
          else s1.currentQuestionIndex,
        showFeedback := false }
  else s

/-- Exit / unmount of the quiz view.  The component's `handleAnswer`
discards the `clearTimeout` closure it builds, and no `useEffect` cleanup
clears the timer, so `pendingTimers` is NOT touched here — this is
faithful to the source. -/
def exitSession (s : SessionState) : SessionState := { s with exited := true }

/-- `handleNext` as written: finishes on the last question, otherwise
increments the index and clears feedback.  (The function body itself has
no answered-question guard.) -/
def handleNext (quiz : Quiz) (s : SessionState) : SessionState :=
  if isLastQuestion quiz s then
    { s with isFinished := true,
             emitted := some (finishAttempt quiz s.answers) }
  else
    { s with currentQuestionIndex := s.currentQuestionIndex + 1,
             showFeedback := false }

/-- The `disabled={!answers[currentQuestion.id]}` guard on the Next/Finish
button: enabled only when a recorded answer exists and is non-empty (the
empty string is falsy in JavaScript). -/
def nextEnabled (quiz : Quiz) (s : SessionState) : Bool :=
  match currentQuestion quiz s with
  | some q =>
    match s.answers q.id with
    | some a => !(a == "")
    | none => false
  | none => false

/-- `goNext`: the only way `handleNext` can run is a click on the
Next/Finish button, which is rendered only while the session is not
finished and is disabled while `nextEnabled` is false; a disabled click is
a no-op. -/
def goNext (quiz : Quiz) (s : SessionState) : SessionState :=
  if s.isFinished then s
  else if nextEnabled quiz s then handleNext quiz s
  else s

/-! ### File parsing (`src/services/fileParser.ts`)

Decoding done by the external libraries (`pdfjs-dist`, `xlsx`, the browser
`FileReader`) is modelled by its outcome: `none` for a decode failure
(rejected promise / thrown exception inside the library call), `some`
payload for a successful decode. -/

/-- The error taxonomy of the spec; each constructor corresponds to one of
the user-facing `Error` messages thrown by `fileParser.ts`. -/
inductive ParseError where
  | unsupportedType
  | corruptFile
  | emptyContent
  | ioError
deriving DecidableEq, Repr

inductive ParsedContent where
  | text (content : String)
  | image (mimeType : String) (data : String)
deriving DecidableEq, Repr

/-- Join a list of strings with a separator. -/
def joinWith (sep : String) : List String → String
  | [] => ""
  | [x] => x
  | x :: xs => x ++ sep ++ joinWith sep xs

/-- A decoded PDF: the list of pages, each page the list of its text items
(`textContent.items.map(item => item.str)`). -/
def PdfPages : Type := List (List String)

/-- `textContent.items.map(item => item.str).join(' ')`. -/
def pageText (items : List String) : String := joinWith " " items

/-- The page loop of `parsePdf`, accumulating
`fullText += "--- Page i ---\n" + pageText + "\n\n"` for i = 1..numPages. -/
def pdfFullTextFrom (i : Nat) : List (List String) → String
  | [] => ""
  | p :: ps =>
    "--- Page " ++ toString i ++ " ---\n" ++ pageText p ++ "\n\n"
      ++ pdfFullTextFrom (i + 1) ps

def pdfFullText (pages : PdfPages) : String := pdfFullTextFrom 1 pages

/-- The distinct failure signals produced inside the `try` block of
`parsePdf`: a decode failure of `pdfjs`, or the explicitly thrown
"PDF appears to be empty or contains only images" error. -/
inductive PdfBodyError where
  | decodeFailed
  | emptyThrow
deriving DecidableEq, Repr

/-- The body of `parsePdf`'s `try` block: decode, concatenate the page
texts with page markers, and throw the empty-content error when the
concatenation is blank after trimming. -/
def parsePdfBody (decoded : Option PdfPages) : Except PdfBodyError String :=
  match decoded with
  | none => .error .decodeFailed
  | some pages =>
    let fullText := pdfFullText pages
    if jsTrim fullText == "" then .error .emptyThrow
    else .ok fullText

/-- `parsePdf` as written: the whole body, including the thrown
empty-content error, sits inside one `try`, and the `catch` replaces ANY
error with `Failed to read PDF file. It might be corrupted or password
protected.` (the `CorruptFileError` of the taxonomy). -/
def parsePdf (decoded : Option PdfPages) : Except ParseError String :=
  match parsePdfBody decoded with
  | .ok t => .ok t
  | .error _ => .error .corruptFile

/-- A decoded workbook: sheet names in declared order, plus the cell rows
of each sheet. -/
structure Workbook where
  sheetNames : List String
  sheets : String → List (List String)

/-- Model of `XLSX.utils.sheet_to_csv`: rows joined by newlines, cells
joined by commas. -/
def sheetToCsv (rows : List (List String)) : String :=
  joinWith "\n" (rows.map (joinWith ","))

/-- `parseExcel`: on decode failure (or when `SheetNames` is empty, where
`sheet_to_csv(undefined)` throws inside the same `try`) rejects with the
`CorruptFileError` message; reads only `workbook.SheetNames[0]`; rejects
with the `EmptyContentError` message when the CSV is blank after trimming
— this `reject` is a promise rejection, not a thrown exception, so the
surrounding `catch` does not intercept it. -/
def parseExcel : Option Workbook → Except ParseError String
  | none => .error .corruptFile
  | some wb =>
    match wb.sheetNames with
    | [] => .error .corruptFile
    | sheetName :: _ =>
      let csv := sheetToCsv (wb.sheets sheetName)
      if jsTrim csv == "" then .error .emptyContent
      else .ok ("--- Excel Sheet: " ++ sheetName ++ " ---\n" ++ csv)

/-- `parseImage`: a failed `FileReader` read rejects with the `IOError`
message; a successful read yields the MIME type and base64 payload of the
data URL. -/
def parseImage (readResult : Option (String × String)) :
    Except ParseError ParsedContent :=
  match readResult with
  | none => .error .ioError
  | some (mime, data) => .ok (.image mime data)

/-- Which of the three extraction paths (or the unsupported-type rejection)
`parseFile` selects, as a function of the file's name and declared media
type only. -/
inductive Dispatch where
  | pdfPath
  | excelPath
  | imagePath
  | unsupported
deriving DecidableEq, Repr

/-- The spreadsheet condition of `parseFile`'s second branch: one of the
two spreadsheet MIME types, or a case-sensitive
`name.endsWith('.xlsx') / name.endsWith('.xls')`. -/
def isExcelSelected (name fileType : String) : Bool :=
  fileType ==
      "application/vnd.openxmlformats-officedocument.spreadsheetml.sheet"
    || fileType == "application/vnd.ms-excel"
    || jsEndsWith name ".xlsx"
    || jsEndsWith name ".xls"

/-- The dispatch chain of `parseFile`:
`fileType === 'application/pdf'`, else the spreadsheet condition, else
`fileType.startsWith('image/')`, else the `UnsupportedTypeError` throw. -/
def dispatch (name fileType : String) : Dispatch :=
  if fileType == "application/pdf" then .pdfPath
  else if isExcelSelected name fileType then .excelPath
  else if jsStartsWith fileType "image/" then .imagePath
  else .unsupported

/-- `parseFile`, parameterized by the decode outcomes of the three format
libraries; the unsupported branch throws before any of them is consulted. -/
def parseFile (name fileType : String) (pdfDec : Option PdfPages)
    (xlsxDec : Option Workbook) (imgRead : Option (String × String)) :
    Except ParseError ParsedContent :=
  match dispatch name fileType with
  | .pdfPath => (parsePdf pdfDec).map .text
  | .excelPath => (parseExcel xlsxDec).map .text
  | .imagePath => parseImage imgRead
  | .unsupported => .error .unsupportedType

/-! ### Shuffle and `startQuiz` (`src/App.tsx`) -/

/-- The destructuring swap
`[arr[i], arr[j]] = [arr[j], arr[i]]` on a list; out-of-range indices
leave the list unchanged (never reached for the in-range `j` produced by
`Math.floor(Math.random() * (i + 1))`). -/
def listSwap (l : List α) (i j : Nat) : List α :=
  match l.get? i, l.get? j with
  | some x, some y => (l.set i y).set j x
  | _, _ => l

/-- The backward Fisher-Yates loop
`for (let i = n - 1; i > 0; i--) { j = rand i; swap i j }`,
descending from the given `i` to 1.  `rand i` models
`Math.floor(Math.random() * (i + 1))`, a value in `[0, i]`. -/
def fyLoop (rand : Nat → Nat) : Nat → List α → List α
  | 0, l => l
  | i + 1, l => fyLoop rand i (listSwap l (i + 1) (rand (i + 1)))

/-- The shuffle of `startQuiz`: copy the questions
(`[...quiz.questions]`) and run the backward Fisher-Yates pass on the
copy. -/
def fisherYatesShuffle (rand : Nat → Nat) (l : List α) : List α :=
  fyLoop rand (l.length - 1) l

/-- `startQuiz`: with `randomize` set, the session quiz carries the
shuffled copy of the question sequence; the original `Quiz` value is not
modified. -/
def startQuiz (rand : Nat → Nat) (quiz : Quiz) (randomize : Bool) : Quiz :=
  if randomize then
    { quiz with questions := fisherYatesShuffle rand quiz.questions }
  else quiz

/-! ### Concrete sample data used by witnesses and counterexamples -/

def qMC : Question :=
  { id := "q1", type := .MULTIPLE_CHOICE, question := "2+2",
    options := some ["3", "4", "5", "6"], correctAnswer := "4",
    explanation := "arithmetic" }

def qTF : Question :=
  { id := "q2", type := .TRUE_FALSE, question := "Sky is blue",
    options := none, correctAnswer := "True", explanation := "physics" }

def qSA : Question :=
  { id := "q3", type := .SHORT_ANSWER, question := "Capital of France",
    options := none, correctAnswer := "Paris", explanation := "geography" }

def quizTwo : Quiz :=
  { id := "z1", title := "t", sourceFileName := "f.pdf", createdAt := 0,
    questions := [qMC, qSA], score := none, totalQuestions := 2 }

def quizThree : Quiz :=
  { id := "z2", title := "t3", sourceFileName := "f.pdf", createdAt := 0,
    questions := [qMC, qTF, qSA], score := none, totalQuestions := 3 }

def ansThree : AnswerMap := fun k =>
  if k = "q1" then some "4"
  else if k = "q2" then some "True"
  else if k = "q3" then some "paris " else none

/-- A question whose answer key collides with the review sentinel. -/
def qSentinel : Question :=
  { id := "q9", type := .SHORT_ANSWER, question := "?", options := none,
    correctAnswer := "No answer", explanation := "because" }

def noAnswers : AnswerMap := fun _ => none

/-- Session state sitting on the second (SHORT_ANSWER) question of
`quizTwo`. -/
def sSA : SessionState := { initState with currentQuestionIndex := 1 }

/-- State of `quizTwo` with the first question answered. -/
def ansState : SessionState :=
  { initState with answers := fun k => if k = "q1" then some "4" else none }

/-- A workbook whose first sheet is empty. -/
def wbEmpty : Workbook := { sheetNames := ["Sheet1"], sheets := fun _ => [] }

/-- A workbook with content on the first sheet. -/
def wbData : Workbook :=
  { sheetNames := ["Sheet1", "Extra"],
    sheets := fun n => if n = "Sheet1" then [["a", "b"], ["c"]] else [] }

/-! ### Permutation helper lemmas for the Fisher-Yates pass -/

theorem cons_set_perm {α : Type u} (t : List α) : ∀ (m : Nat) (x a : α),
    t.get? m = some x → (x :: t.set m a).Perm (a :: t) := by
  induction t with
  | nil => intro m x a h; cases m <;> simp at h
  | cons b t2 ih =>
    intro m x a h
    cases m with
    | zero =>
      simp only [List.get?] at h
      injection h with h
      subst h
      simpa using List.Perm.swap a b t2
    | succ m2 =>
      simp only [List.get?] at h
      have h1 := ih m2 x a h
      simp only [List.set]
      exact (List.Perm.swap b x _).trans ((h1.cons b).trans (List.Perm.swap a b t2))

theorem set_set_perm {α : Type u} (l : List α) : ∀ (i j : Nat) (x y : α),
    l.get? i = some x → l.get? j = some y → ((l.set i y).set j x).Perm l := by
  induction l with
  | nil => intro i j x y hi hj; cases i <;> simp at hi
  | cons a t2 ih =>
    intro i j x y hi hj
    cases i with
    | zero =>
      simp only [List.get?] at hi
      injection hi with hi
      subst hi
      cases j with
      | zero =>
        simp only [List.get?] at hj
        injection hj with hj
        subst hj
        simp
      | succ m =>
        simp only [List.get?] at hj
        simp only [List.set]
        exact cons_set_perm t2 m y a hj
    | succ n =>
      simp only [List.get?] at hi
      cases j with
      | zero =>
        simp only [List.get?] at hj
        injection hj with hj
        subst hj
        simp only [List.set]
        exact cons_set_perm t2 n x a hi
      | succ m =>
        simp only [List.set]
        exact (ih n m x y hi hj).cons a

theorem listSwap_perm {α : Type u} (l : List α) (i j : Nat) :
    (listSwap l i j).Perm l := by
  unfold listSwap
  split
  next x y hx hy => exact set_set_perm l i j x y hx hy
  next => exact List.Perm.refl l

theorem fyLoop_perm {α : Type u} (rand : Nat → Nat) :
    ∀ (i : Nat) (l : List α), (fyLoop rand i l).Perm l := by
  intro i
  induction i with
  | zero => intro l; exact List.Perm.refl l
  | succ n ih =>
    intro l
    exact (ih (listSwap l (n + 1) (rand (n + 1)))).trans
      (listSwap_perm l (n + 1) (rand (n + 1)))

theorem fisherYatesShuffle_perm {α : Type u} (rand : Nat → Nat) (l : List α) :
    (fisherYatesShuffle rand l).Perm l :=
  fyLoop_perm rand (l.length - 1) l

/-! ### Claim theorems -/

/-- C7: the randomized-retake shuffle (the backward Fisher-Yates pass of
`startQuiz` over a copy of the question sequence, swapping index `i` with
an index `j` drawn from `[0, i]` for `i` from last down to 1) returns a
permutation of the input — in particular the same multiset of question
ids — and the non-randomized path and the original quiz's stored sequence
are untouched. -/
theorem shuffle_is_permutation (rand : Nat → Nat) (quiz : Quiz) :
    ((startQuiz rand quiz true).questions).Perm quiz.questions
    ∧ (((startQuiz rand quiz true).questions.map Question.id : List String) :
          Multiset String)
        = ((quiz.questions.map Question.id : List String) : Multiset String)
    ∧ (startQuiz rand quiz false).questions = quiz.questions
    ∧ (startQuiz rand quiz true).id = quiz.id := by
  refine ⟨?_, ?_, rfl, rfl⟩
  · exact fisherYatesShuffle_perm rand quiz.questions
  · exact Multiset.coe_eq_coe.mpr
      ((fisherYatesShuffle_perm rand quiz.questions).map Question.id)

/-- C9: the score is a count of a per-question predicate keyed only by the
question id, so it is invariant under any permutation of the question
sequence; in particular a shuffled retake with the same answers map scores
the same as the original order. -/
theorem score_invariant_under_permutation (answers : AnswerMap)
    (l l2 : List Question) (h : l.Perm l2) :
    computeScore answers l = computeScore answers l2
    ∧ ∀ (rand : Nat → Nat) (quiz : Quiz),
        computeScore answers (fisherYatesShuffle rand quiz.questions)
          = getScore quiz answers := by
  constructor
  · exact h.countP_eq (scoreCorrectB answers)
  · intro rand quiz
    exact (fisherYatesShuffle_perm rand quiz.questions).countP_eq
      (scoreCorrectB answers)

/-- Witness for C9 at a concrete transposition of `quizTwo`'s questions. -/
theorem score_invariant_witness :
    ([qMC, qSA].Perm [qSA, qMC])
    ∧ computeScore ansThree [qMC, qSA] = computeScore ansThree [qSA, qMC] :=
  ⟨by decide, (score_invariant_under_permutation ansThree [qMC, qSA]
      [qSA, qMC] (by decide)).1⟩

/-- C1: at the `InProgress → Finished` transition a question is counted
correct iff the recorded answer for its id, lower-cased and trimmed,
equals the similarly normalized `correctAnswer`; a question with no
recorded entry counts as incorrect; the emitted score is the count of
correct questions and the displayed percentage is
`round(score / totalQuestions × 100)`. -/
theorem scoring_rule_and_percentage (quiz : Quiz) (answers : AnswerMap)
    (h : quiz.totalQuestions = quiz.questions.length) :
    (finishAttempt quiz answers).score
        = quiz.questions.countP (scoreCorrectB answers)
    ∧ (∀ q : Question, scoreCorrectB answers q = true
        ↔ ∃ a, answers q.id = some a
            ∧ normalizeAnswer a = normalizeAnswer q.correctAnswer)
    ∧ (∀ q : Question, answers q.id = none → scoreCorrectB answers q = false)
    ∧ displayedPercentage quiz answers
        = round (((finishAttempt quiz answers).score : ℚ)
            / (quiz.totalQuestions : ℚ) * 100) := by
  refine ⟨rfl, ?_, ?_, ?_⟩
  · intro q
    unfold scoreCorrectB
    cases hA : answers q.id with
    | none => simp
    | some a => simp [beq_iff_eq]
  · intro q hA
    unfold scoreCorrectB
    rw [hA]
  · unfold displayedPercentage getScore finishAttempt
    rw [h]

/-- Witness for C1 on the spec's three-question scenario (answers
`"4"`, `"True"`, `"paris "`). -/
theorem scoring_rule_and_percentage_witness :
    quizThree.totalQuestions = quizThree.questions.length
    ∧ displayedPercentage quizThree ansThree
        = round (((finishAttempt quizThree ansThree).score : ℚ)
            / (quizThree.totalQuestions : ℚ) * 100) :=
  ⟨rfl, (scoring_rule_and_percentage quizThree ansThree rfl).2.2.2⟩

/-- C2 (amended): the review-time score equals the emitted score, and the
review verdict of a question equals the scoring verdict PROVIDED the
question's normalized answer key is not the normalized "No answer"
sentinel and, when the recorded answer is the empty string, the normalized
key is not empty; under the same proviso an unanswered question is shown
with the sentinel and judged incorrect, and the stored explanation is
exposed exactly for incorrect verdicts. -/
theorem review_matches_scoring_guarded (quiz : Quiz) (answers : AnswerMap)
    (q : Question)
    (h1 : normalizeAnswer q.correctAnswer ≠ "no answer")
    (h2 : normalizeAnswer q.correctAnswer = "" → answers q.id ≠ some "") :
    getScore quiz answers = (finishAttempt quiz answers).score
    ∧ (reviewEntry answers q).isCorrect = scoreCorrectB answers q
    ∧ (answers q.id = none →
        (reviewEntry answers q).userAnswer = "No answer"
        ∧ (reviewEntry answers q).isCorrect = false)
    ∧ ((reviewEntry answers q).shownExplanation = some q.explanation
        ↔ scoreCorrectB answers q = false) := by
  have hno : normalizeAnswer "No answer" = "no answer" := by decide
  have hemp : normalizeAnswer "" = "" := by decide
  have e1 : ("no answer" == normalizeAnswer q.correctAnswer) = false :=
    beq_eq_false_iff_ne.mpr (fun hh => h1 hh.symm)
  have hkey : (reviewEntry answers q).isCorrect = scoreCorrectB answers q := by
    unfold reviewEntry scoreCorrectB
    cases hA : answers q.id with
    | none =>
      show (normalizeAnswer "No answer" == normalizeAnswer q.correctAnswer)
          = false
      rw [hno, e1]
    | some a =>
      by_cases hea : a = ""
      · subst hea
        have hc : normalizeAnswer q.correctAnswer ≠ "" :=
          fun hc => h2 hc hA
        have e2 : ("" == normalizeAnswer q.correctAnswer) = false :=
          beq_eq_false_iff_ne.mpr (fun hh => hc hh.symm)
        show (normalizeAnswer (if ("" == "") = true then "No answer" else "")
              == normalizeAnswer q.correctAnswer)
            = (normalizeAnswer "" == normalizeAnswer q.correctAnswer)
        have hif : (if ("" == "") = true then "No answer" else "")
            = "No answer" := by simp
        rw [hif, hno, hemp, e1, e2]
      · have hba : (a == "") = false := beq_eq_false_iff_ne.mpr hea
        show (normalizeAnswer (if (a == "") = true then "No answer" else a)
              == normalizeAnswer q.correctAnswer)
            = (normalizeAnswer a == normalizeAnswer q.correctAnswer)
        rw [hba]
        simp
  refine ⟨rfl, hkey, ?_, ?_⟩
  · intro hA
    refine ⟨?_, ?_⟩
    · unfold reviewEntry
      rw [hA]
    · rw [hkey]
      unfold scoreCorrectB
      rw [hA]
  · have hshow : (reviewEntry answers q).shownExplanation
        = if (reviewEntry answers q).isCorrect then none
          else some q.explanation := rfl
    rw [hshow, hkey]
    cases scoreCorrectB answers q <;> simp

/-- Witness for C2 (amended) at the third question of the concrete
scenario quiz. -/
theorem review_matches_scoring_witness :
    (reviewEntry ansThree qSA).isCorrect = scoreCorrectB ansThree qSA
    ∧ getScore quizThree ansThree = (finishAttempt quizThree ansThree).score :=
  ⟨(review_matches_scoring_guarded quizThree ansThree qSA (by decide)
      (by decide)).2.1,
   (review_matches_scoring_guarded quizThree ansThree qSA (by decide)
      (by decide)).1⟩

/-- C2 counterexample: for a question whose `correctAnswer` is
`"No answer"` and no recorded answer, the review verdict is correct (the
sentinel matches the key) while the scoring rule judges it incorrect, and
the explanation is not exposed although the question scored as incorrect —
the review verdict does not equal the scoring verdict. -/
theorem review_verdict_sentinel_mismatch :
    (reviewEntry noAnswers qSentinel).isCorrect = true
    ∧ scoreCorrectB noAnswers qSentinel = false
    ∧ (reviewEntry noAnswers qSentinel).shownExplanation = none := by decide

/-- C3: `parsePdf` throws its empty-content error INSIDE the same `try`
whose `catch` replaces every error with the corrupt-file message, so a PDF
that decodes successfully with blank concatenated text surfaces as
`CorruptFileError`, not `EmptyContentError`: the body signals
`emptyThrow`, yet the function returns `corruptFile` — the same error it
returns for a genuine decode failure. -/
theorem pdf_empty_error_swallowed :
    parsePdfBody (some []) = Except.error PdfBodyError.emptyThrow
    ∧ parsePdf (some []) = Except.error ParseError.corruptFile
    ∧ parsePdf none = Except.error ParseError.corruptFile :=
  ⟨rfl, rfl, rfl⟩

/-- C4 counterexample: a file named `notes.pdf` with an empty declared
media type is rejected as unsupported although its extension is in the
allow-list (case-insensitively), so there is no extension fallback for the
PDF path. -/
theorem pdf_extension_fallback_missing :
    dispatch "notes.pdf" "" = Dispatch.unsupported
    ∧ jsEndsWith (jsToLower "notes.pdf") ".pdf" = true := by decide

/-- C4 (amended): `parseFile` selects by declared media type
(`application/pdf` → PDF path; the two spreadsheet MIME types or a
case-sensitive `.xlsx`/`.xls` filename suffix → spreadsheet path; any
media type starting with `image/` → image path); anything else fails with
`UnsupportedTypeError` without consulting any decoder. -/
theorem dispatch_characterization (name fileType : String) :
    ((fileType == "application/pdf") = true →
      dispatch name fileType = Dispatch.pdfPath)
    ∧ ((fileType == "application/pdf") = false →
        isExcelSelected name fileType = true →
        dispatch name fileType = Dispatch.excelPath)
    ∧ ((fileType == "application/pdf") = false →
        isExcelSelected name fileType = false →
        jsStartsWith fileType "image/" = true →
        dispatch name fileType = Dispatch.imagePath)
    ∧ ((fileType == "application/pdf") = false →
        isExcelSelected name fileType = false →
        jsStartsWith fileType "image/" = false →
        dispatch name fileType = Dispatch.unsupported
        ∧ ∀ (pdfDec : Option PdfPages) (xlsxDec : Option Workbook)
            (imgRead : Option (String × String)),
            parseFile name fileType pdfDec xlsxDec imgRead
              = Except.error ParseError.unsupportedType) := by
  refine ⟨?_, ?_, ?_, ?_⟩
  · intro h1
    simp [dispatch, h1]
  · intro h1 h2
    simp [dispatch, h1, h2]
  · intro h1 h2 h3
    simp [dispatch, h1, h2, h3]
  · intro h1 h2 h3
    have hd : dispatch name fileType = Dispatch.unsupported := by
      simp [dispatch, h1, h2, h3]
    refine ⟨hd, ?_⟩
    intro pdfDec xlsxDec imgRead
    simp [parseFile, hd]

/-- Witness for C4 (amended): the lowercase `.xlsx` suffix selects the
spreadsheet path even with a blank media type. -/
theorem dispatch_characterization_witness :
    dispatch "a.xlsx" "text/plain" = Dispatch.excelPath :=
  (dispatch_characterization "a.xlsx" "text/plain").2.1 (by decide) (by decide)

/-- C5: answering the MULTIPLE_CHOICE first question of a two-question
quiz schedules the 700 ms auto-advance, and exiting the session does NOT
cancel it (`handleAnswer` is a plain event handler, so the
`() => clearTimeout(timer)` closure it returns is discarded): after exit
the timer is still pending and its callback still fires (consuming the
timer), while a SHORT_ANSWER submission schedules nothing. -/
theorem autoAdvance_timer_survives_exit :
    (handleAnswer quizTwo initState "4").pendingTimers = [0]
    ∧ (exitSession (handleAnswer quizTwo initState "4")).pendingTimers = [0]
    ∧ (exitSession (handleAnswer quizTwo initState "4")).exited = true
    ∧ (fireTimer (exitSession (handleAnswer quizTwo initState "4"))
        0).pendingTimers = []
    ∧ (handleAnswer quizTwo sSA "x").pendingTimers = [] := by decide

/-- C6: in an in-progress state whose current question has no recorded
answer, `goNext` is a no-op (the Next/Finish button is disabled), leaving
the index unchanged and never reaching `Finished`; with a non-empty
recorded answer, `goNext` at the last index transitions to `Finished`
emitting the scored attempt, and otherwise increments the index and
clears `showFeedback`. -/
theorem goNext_guard_and_transitions (quiz : Quiz) (s : SessionState)
    (q : Question) (hf : s.isFinished = false)
    (hq : currentQuestion quiz s = some q) :
    (s.answers q.id = none → goNext quiz s = s)
    ∧ (∀ a : String, s.answers q.id = some a → a ≠ "" →
        (isLastQuestion quiz s = true →
          (goNext quiz s).isFinished = true
          ∧ (goNext quiz s).emitted = some (finishAttempt quiz s.answers))
        ∧ (isLastQuestion quiz s = false →
          (goNext quiz s).currentQuestionIndex = s.currentQuestionIndex + 1
          ∧ (goNext quiz s).showFeedback = false
          ∧ (goNext quiz s).isFinished = false)) := by
  constructor
  · intro hA
    have hen : nextEnabled quiz s = false := by
      unfold nextEnabled
      rw [hq]
      simp [hA]
    unfold goNext
    rw [hf, hen]
    simp
  · intro a hA hne
    have hba : (a == "") = false := beq_eq_false_iff_ne.mpr hne
    have hen : nextEnabled quiz s = true := by
      unfold nextEnabled
      rw [hq]
      simp [hA, hba]
    have hgo : goNext quiz s = handleNext quiz s := by
      unfold goNext
      rw [hf, hen]
      simp
    constructor
    · intro hlast
      rw [hgo]
      unfold handleNext
      rw [hlast]
      simp
    · intro hlast
      rw [hgo]
      unfold handleNext
      rw [hlast]
      simp [hf]

/-- Witness for C6: on `quizTwo` with the first question answered,
`goNext` advances from index 0 to index 1 without finishing. -/
theorem goNext_guard_witness :
    (goNext quizTwo ansState).currentQuestionIndex = 1
    ∧ (goNext quizTwo ansState).showFeedback = false
    ∧ (goNext quizTwo ansState).isFinished = false :=
  ((goNext_guard_and_transitions quizTwo ansState qMC rfl rfl).2 "4"
    (by decide) (by decide)).2 (by decide)

/-- C8: spreadsheet extraction reads only the first sheet in declared
order (the result depends only on the first sheet name and that sheet's
contents), prefixes the serialized comma-separated table with the
`--- Excel Sheet: <name> ---` marker, fails with `EmptyContentError` when
the serialized table trims to empty, and yields `CorruptFileError` only on
decode failure. -/
theorem parseExcel_first_sheet_and_errors (wb wb2 : Workbook)
    (sheetName : String) (rest rest2 : List String)
    (h1 : wb.sheetNames = sheetName :: rest)
    (h2 : wb2.sheetNames = sheetName :: rest2)
    (h3 : wb.sheets sheetName = wb2.sheets sheetName) :
    parseExcel (some wb) = parseExcel (some wb2)
    ∧ (jsTrim (sheetToCsv (wb.sheets sheetName)) = "" →
        parseExcel (some wb) = Except.error ParseError.emptyContent)
    ∧ (jsTrim (sheetToCsv (wb.sheets sheetName)) ≠ "" →
        parseExcel (some wb)
          = Except.ok ("--- Excel Sheet: " ++ sheetName ++ " ---\n"
              ++ sheetToCsv (wb.sheets sheetName)))
    ∧ parseExcel (some wb) ≠ Except.error ParseError.corruptFile
    ∧ parseExcel none = Except.error ParseError.corruptFile := by
  have hwb : parseExcel (some wb)
      = (if (jsTrim (sheetToCsv (wb.sheets sheetName)) == "") = true
         then Except.error ParseError.emptyContent
         else Except.ok ("--- Excel Sheet: " ++ sheetName ++ " ---\n"
             ++ sheetToCsv (wb.sheets sheetName))) := by
    simp only [parseExcel]
    rw [h1]
  have hwb2 : parseExcel (some wb2)
      = (if (jsTrim (sheetToCsv (wb2.sheets sheetName)) == "") = true
         then Except.error ParseError.emptyContent
         else Except.ok ("--- Excel Sheet: " ++ sheetName ++ " ---\n"
             ++ sheetToCsv (wb2.sheets sheetName))) := by
    simp only [parseExcel]
    rw [h2]
  refine ⟨?_, ?_, ?_, ?_, rfl⟩
  · rw [hwb, hwb2, h3]
  · intro hcsv
    rw [hwb, if_pos (beq_iff_eq.mpr hcsv)]
  · intro hcsv
    rw [hwb, if_neg]
    intro hh
    exact hcsv (beq_iff_eq.mp hh)
  · by_cases hcsv : jsTrim (sheetToCsv (wb.sheets sheetName)) = ""
    · rw [hwb, if_pos (beq_iff_eq.mpr hcsv)]
      simp
    · rw [hwb, if_neg (fun hh => hcsv (beq_iff_eq.mp hh))]
      simp

/-- Witness for C8: an empty first sheet yields `EmptyContentError`, while
a decode failure yields `CorruptFileError`. -/
theorem parseExcel_witness :
    parseExcel (some wbEmpty) = Except.error ParseError.emptyContent
    ∧ parseExcel none = Except.error ParseError.corruptFile :=
  ⟨(parseExcel_first_sheet_and_errors wbEmpty wbEmpty "Sheet1" [] []
      rfl rfl rfl).2.1 (by decide),
   (parseExcel_first_sheet_and_errors wbEmpty wbEmpty "Sheet1" [] []
      rfl rfl rfl).2.2.2.2⟩

/-- C10: submitting the empty string (typing then clearing a SHORT_ANSWER
input) stores `""` in the answers map, yet the `goNext` guard treats the
question as unanswered — the empty string is falsy — so `goNext` neither
advances nor finishes even though an entry for the id exists. -/
theorem empty_answer_blocks_goNext (quiz : Quiz) (s : SessionState)
    (q : Question) (hf : s.isFinished = false) (hsf : s.showFeedback = false)
    (hq : currentQuestion quiz s = some q)
    (ht : q.type = QuestionType.SHORT_ANSWER) :
    (handleAnswer quiz s "").answers q.id = some ""
    ∧ goNext quiz (handleAnswer quiz s "") = handleAnswer quiz s ""
    ∧ (goNext quiz (handleAnswer quiz s "")).currentQuestionIndex
        = s.currentQuestionIndex
    ∧ (goNext quiz (handleAnswer quiz s "")).isFinished = false := by
  have hb : (q.type == QuestionType.MULTIPLE_CHOICE
      || q.type == QuestionType.TRUE_FALSE) = false := by
    rw [ht]
    rfl
  have hs1 : handleAnswer quiz s ""
      = { s with answers := fun k => if k = q.id then some "" else s.answers k } := by
    unfold handleAnswer
    simp [hsf, hf, hq, hb]
  have hAns : (handleAnswer quiz s "").answers q.id = some "" := by
    rw [hs1]
    simp
  have hcur : currentQuestion quiz (handleAnswer quiz s "") = some q := by
    rw [hs1]
    unfold currentQuestion at hq ⊢
    exact hq
  have hfin : (handleAnswer quiz s "").isFinished = false := by
    rw [hs1]
    exact hf
  have hen : nextEnabled quiz (handleAnswer quiz s "") = false := by
    unfold nextEnabled
    rw [hcur]
    simp [hAns]
  have hgo : goNext quiz (handleAnswer quiz s "") = handleAnswer quiz s "" := by
    unfold goNext
    rw [hfin, hen]
    simp
  refine ⟨hAns, hgo, ?_, ?_⟩
  · rw [hgo, hs1]
  · rw [hgo, hfin]

/-- Witness for C10: on the SHORT_ANSWER question of `quizTwo`, clearing
the input stores `""` and `goNext` refuses to advance. -/
theorem empty_answer_blocks_witness :
    (handleAnswer quizTwo sSA "").answers qSA.id = some ""
    ∧ (goNext quizTwo (handleAnswer quizTwo sSA "")).currentQuestionIndex = 1
    ∧ (goNext quizTwo (handleAnswer quizTwo sSA "")).isFinished = false :=
  ⟨(empty_answer_blocks_goNext quizTwo sSA qSA rfl rfl rfl rfl).1,
   (empty_answer_blocks_goNext quizTwo sSA qSA rfl rfl rfl rfl).2.2.1,
   (empty_answer_blocks_goNext quizTwo sSA qSA rfl rfl rfl rfl).2.2.2⟩
